import Mathlib

/-!
Shallow embedding of `accelergywrapper.py` (Accelergy-Analog-Plugin).

Python floats are idealised as exact rationals; Python exceptions are
modelled with `Except`.  Attribute dictionaries become association lists
(first binding wins, matching a dict with unique keys).  The external
model-lookup functions (`ADCRequest.energy_per_op`, `ADCRequest.area`,
living in optimizer.py which is not part of the embedded sources) are
taken as opaque function parameters, as the spec directs.  Logging is
dropped.
-/

namespace AnalogPlugin

/-- A raw attribute value supplied by the host: a number or a string. -/
inductive Value where
  | num (q : ℚ)
  | str (s : String)
deriving DecidableEq

/-- Dictionary lookup: `key in attributes` / `attributes[key]`. -/
def lookupAttr (attrs : List (String × Value)) (k : String) : Option Value :=
  match attrs with
  | [] => none
  | (k0, v) :: t => if k0 = k then some v else lookupAttr t k

/-! ### Decimal-number scanning (`re.findall` of the number pattern) -/

/-- Numeric value of a list of decimal digit characters, left to right. -/
def digitsToNat (ds : List Char) : ℕ :=
  ds.foldl (fun a c => 10 * a + (c.toNat - 48)) 0

/-- Maximal digit run at the head of the list, and the remainder. -/
def spanDigits (cs : List Char) : List Char × List Char :=
  (cs.takeWhile Char.isDigit, cs.dropWhile Char.isDigit)

/-- Value of the regex match starting exactly at the head of `cs`, if the
pattern matches there.  The pattern (first alternative with backtracking)
matches digits with an optional fractional part, or a bare `.digits`;
a trailing dot with no following digit is left unconsumed. -/
def matchHere (cs : List Char) : Option ℚ :=
  let d1 := cs.takeWhile Char.isDigit
  let r1 := cs.dropWhile Char.isDigit
  if d1.isEmpty then
    match r1 with
    | '.' :: r2 =>
      let d2 := r2.takeWhile Char.isDigit
      if d2.isEmpty then none
      else some ((digitsToNat d2 : ℚ) / 10 ^ d2.length)
    | _ => none
  else
    match r1 with
    | '.' :: r2 =>
      let d2 := r2.takeWhile Char.isDigit
      some ((digitsToNat d1 : ℚ) + (digitsToNat d2 : ℚ) / 10 ^ d2.length)
    | _ => some (digitsToNat d1 : ℚ)

/-- First (leftmost) match of the decimal-number pattern, as a rational:
the value of `float(re.findall(pattern, s)[0])`, or `none` when `findall`
returns the empty list.  The pattern is unsigned, so the result is
never negative. -/
def firstNumber : List Char → Option ℚ
  | [] => none
  | c :: rest =>
    match matchHere (c :: rest) with
    | some q => some q
    | none => firstNumber rest

/-! ### `float(...)` on a string (Python float literal syntax) -/

/-- `10 ^ e` over ℚ for a signed exponent. -/
def qpow10 (e : ℤ) : ℚ :=
  if 0 ≤ e then (10 : ℚ) ^ e.toNat else 1 / (10 : ℚ) ^ (-e).toNat

/-- Mantissa of a float literal: `digits [. digits]` or `. digits`,
with at least one digit in total; returns the value and the rest. -/
def parseMantissa (cs : List Char) : Option (ℚ × List Char) :=
  let d1 := cs.takeWhile Char.isDigit
  let r1 := cs.dropWhile Char.isDigit
  match r1 with
  | '.' :: r2 =>
    let d2 := r2.takeWhile Char.isDigit
    let r3 := r2.dropWhile Char.isDigit
    if d1.isEmpty ∧ d2.isEmpty then none
    else some ((digitsToNat d1 : ℚ) + (digitsToNat d2 : ℚ) / 10 ^ d2.length, r3)
  | _ => if d1.isEmpty then none else some ((digitsToNat d1 : ℚ), r1)

/-- Exponent suffix `e[±]digits` of a float literal. -/
def parseExpPart (cs : List Char) : Option (ℤ × List Char) :=
  match cs with
  | c :: r1 =>
    if c = 'e' ∨ c = 'E' then
      let signed : List Char → Option (ℤ × List Char) := fun r2 =>
        let ds := r2.takeWhile Char.isDigit
        let r3 := r2.dropWhile Char.isDigit
        if ds.isEmpty then none else some ((digitsToNat ds : ℤ), r3)
      match r1 with
      | '+' :: r2 => signed r2
      | '-' :: r2 => (signed r2).map (fun p => (-p.1, p.2))
      | _ => signed r1
    else none
  | [] => none

/-- Drop spaces at both ends (Python `float` ignores surrounding blanks). -/
def stripSpaces (cs : List Char) : List Char :=
  ((cs.dropWhile (· = ' ')).reverse.dropWhile (· = ' ')).reverse

/-- `float(s)` on a string: optional sign, decimal mantissa, optional
exponent; `none` models the `ValueError`.  (Exotic forms — underscores,
`inf`, `nan` — are outside the inputs this plugin meets and are mapped
to `none` like any other unparsable text.) -/
def pyFloatStr (s : String) : Option ℚ :=
  let cs := stripSpaces s.data
  let body : ℚ → List Char → Option ℚ := fun sgn cs1 =>
    match parseMantissa cs1 with
    | none => none
    | some (m, r) =>
      match r with
      | [] => some (sgn * m)
      | _ =>
        match parseExpPart r with
        | some (e, []) => some (sgn * m * qpow10 e)
        | _ => none
  match cs with
  | '+' :: r => body 1 r
  | '-' :: r => body (-1) r
  | _ => body 1 cs

/-! ### `unit_check` -/

/-- Does `p` start `s`? -/
def startsWithCh : List Char → List Char → Bool
  | [], _ => true
  | _ :: _, [] => false
  | a :: p, b :: s => a = b && startsWithCh p s

/-- `p in s` for strings: does `p` occur as a contiguous substring? -/
def occursIn (p : List Char) : List Char → Bool
  | [] => p.isEmpty
  | c :: t => startsWithCh p (c :: t) || occursIn p t

/-- The ordered SI magnitude tokens scanned by `unit_check`, as
character lists: `['', 'm', 'u', 'n', 'p', 'f']`. -/
def siTokens : List (List Char) := [[], ['m'], ['u'], ['n'], ['p'], ['f']]

/-- `unit_check(key, attributes, default, my_scale, accelergy_scale)`.
Absent key gives the default; a value accepted by `float()` is scaled
`/ my_scale * accelergy_scale`; otherwise the first regex number is
extracted, divided by `my_scale`, divided by `1000 ^ index` for EVERY
SI token of `siTokens` occurring in the raw string (the loop does not
stop at the first hit), and multiplied by `accelergy_scale` only when
no token at all matched — which never happens, as the empty token
always occurs. -/
def unit_check (key : String) (attributes : List (String × Value))
    (default my_scale accelergy_scale : ℚ) : ℚ :=
  match lookupAttr attributes key with
  | none => default
  | some (Value.num x) => x / my_scale * accelergy_scale
  | some (Value.str s) =>
    match pyFloatStr s with
    | some x => x / my_scale * accelergy_scale
    | none =>
      match firstNumber s.data with
      | none => default
      | some x0 =>
        let res := (siTokens.enum).foldl
          (fun (acc : ℚ × Bool) ip =>
            if occursIn ip.2 s.data then (acc.1 / 1000 ^ ip.1, false) else acc)
          (x0 / my_scale, true)
        if res.2 then res.1 * accelergy_scale else res.1

/-! ### `adc_attr_to_request` -/

/-- The exceptions the wrapper can raise.  `missing a` and `noNumeric a`
are the two `AssertionError`s of `checkerr` (messages `No attribute
found: ...` and `No numeric found for attribute: ...`, carrying the
field name); `valueError` is a failed `float()`/`int()` cast (not an
`AssertionError`, hence never caught by the alias fallback);
`invalidRequest` is a rejection by the spec-modelled `ADCRequest`
constructor; `notImplemented` is the dispatch gate's
`NotImplementedError`; `noModelMatch` is the energy path's
`Could not find ADC for request.` assertion. -/
inductive PyErr where
  | missing (attr : String)
  | noNumeric (attr : String)
  | valueError
  | invalidRequest
  | notImplemented
  | noModelMatch
deriving DecidableEq

deriving instance DecidableEq for Except

/-- `checkerr(attr, numeric)`: assert the attribute exists; when the
`numeric` flag is set and the stored value is a string, extract the
first regex number from it (asserting one exists); otherwise return the
raw value. -/
def checkerr (attributes : List (String × Value)) (attr : String) (numeric : Bool) :
    Except PyErr Value :=
  match lookupAttr attributes attr with
  | none => Except.error (PyErr.missing attr)
  | some v =>
    match v, numeric with
    | Value.str s, true =>
      match firstNumber s.data with
      | none => Except.error (PyErr.noNumeric attr)
      | some q => Except.ok (Value.num q)
    | _, _ => Except.ok v

/-- Python `float(...)` applied to a wrapper value (a `ValueError` on an
unparsable string is not an `AssertionError`). -/
def floatCast (v : Value) : Except PyErr ℚ :=
  match v with
  | Value.num q => Except.ok q
  | Value.str s =>
    match pyFloatStr s with
    | some q => Except.ok q
    | none => Except.error PyErr.valueError

/-- Python `int(...)` truncates a float toward zero: the numerator is
divided by the (positive) denominator with truncation toward zero. -/
def pyInt (q : ℚ) : ℤ :=
  q.num.tdiv q.den

/-- Python `int(...)` on a wrapper value.  In `adc_attr_to_request` it is
only ever applied to the numeric result of `checkerr(..., numeric=True)`,
so only the `num` case is reachable; a string would need an integer
literal and anything else is a `ValueError`-like failure. -/
def intCast (v : Value) : Except PyErr ℤ :=
  match v with
  | Value.num q => Except.ok (pyInt q)
  | Value.str _ => Except.error PyErr.valueError

/-- Is this exception an `AssertionError` (the only class caught by the
`try/except` around the `n_adc` lookup)? -/
def isAssertion : PyErr → Bool
  | PyErr.missing _ => true
  | PyErr.noNumeric _ => true
  | _ => false

/-- The canonical request record (`ADCRequest` of optimizer.py).
Fields follow the constructor call in `adc_attr_to_request`; the logger
argument is dropped. -/
structure ADCRequest where
  bits : ℚ
  tech : ℚ
  throughput : ℚ
  n_adc : ℤ
deriving DecidableEq

/-- Modelled from the spec: the `ADCRequest` constructor lives in
optimizer.py, which is not among the embedded sources.  Section 3 of the
spec defines the record as resolution (numeric ≥ 0), technology
(numeric), throughput (numeric), component count (integer ≥ 1), with
construction the point where the constraints are settled, so the
modelled constructor rejects a negative resolution or a component count
below one. -/
def ADCRequest.make (bits tech throughput : ℚ) (n_adc : ℤ) :
    Except PyErr ADCRequest :=
  if 0 ≤ bits ∧ 1 ≤ n_adc then Except.ok ⟨bits, tech, throughput, n_adc⟩
  else Except.error PyErr.invalidRequest

/-- The `try: n_adc = int(checkerr('n_adc', ...)) except AssertionError:
n_adc = int(checkerr('n_components', ...))` block: the fallback runs
exactly when the first attempt raised an `AssertionError`. -/
def n_adcStep (attributes : List (String × Value)) : Except PyErr ℤ :=
  match (checkerr attributes "n_adc" true).bind intCast with
  | Except.ok n => Except.ok n
  | Except.error e =>
    if isAssertion e then (checkerr attributes "n_components" true).bind intCast
    else Except.error e

/-- `adc_attr_to_request(attributes)`: the component count is resolved
first (with the alias fallback), then resolution, technology and
throughput in the order of the constructor call. -/
def adc_attr_to_request (attributes : List (String × Value)) :
    Except PyErr ADCRequest :=
  match n_adcStep attributes with
  | Except.error e => Except.error e
  | Except.ok n_adc =>
    match (checkerr attributes "resolution" true).bind floatCast with
    | Except.error e => Except.error e
    | Except.ok bits =>
      match (checkerr attributes "technology" true).bind floatCast with
      | Except.error e => Except.error e
      | Except.ok tech =>
        match (checkerr attributes "throughput" true).bind floatCast with
        | Except.error e => Except.error e
        | Except.ok throughput => ADCRequest.make bits tech throughput n_adc

/-! ### Estimator dispatch (`AnalogEstimator`) -/

/-- ASCII lower-casing of one character (`str.lower()` on the ASCII
names this plugin compares). -/
def lowerChar (c : Char) : Char :=
  if 'A' ≤ c ∧ c ≤ 'Z' then Char.ofNat (c.toNat + 32) else c

/-- `str(x).lower()` on a string. -/
def lowerStr (s : String) : String := ⟨s.data.map lowerChar⟩

def AREA_ACCURACY : ℚ := 75

def ENERGY_ACCURACY : ℚ := 75

def CLASS_NAMES : List String := ["adc", "pim_adc", "sar_adc"]

def ACTION_NAMES : List String := ["convert", "drive", "read", "sample"]

/-- An `AccelergyQuery`: class name, action name, class attributes
(the opaque action arguments are unused by the wrapper). -/
structure Query where
  class_name : String
  action_name : String
  class_attrs : List (String × Value)
deriving DecidableEq

/-- `primitive_action_supported`: gate on class `adc` and action
`convert` (lower-cased); inside the gate the request build runs with no
`try/except`, so its exception propagates to the host. -/
def primitive_action_supported (q : Query) : Except PyErr ℚ :=
  if lowerStr q.class_name = "adc" ∧ lowerStr q.action_name = "convert" then
    match adc_attr_to_request q.class_attrs with
    | Except.error e => Except.error e
    | Except.ok _ => Except.ok ENERGY_ACCURACY
  else Except.ok 0

/-- `primitive_area_supported`: gate on the class name alone being in
`CLASS_NAMES`; the action name is not consulted; the request build is
again unguarded. -/
def primitive_area_supported (q : Query) : Except PyErr ℚ :=
  if CLASS_NAMES.contains (lowerStr q.class_name) then
    match adc_attr_to_request q.class_attrs with
    | Except.error e => Except.error e
    | Except.ok _ => Except.ok AREA_ACCURACY
  else Except.ok 0

/-- `estimate_energy`: gate on class AND action; build the request
(errors propagate); multiply the opaque model lookup by `1e12` (J to
pJ); assert the product nonzero; report with unit label `p`. -/
def estimate_energy (energy_per_op_model : ADCRequest → ℚ) (q : Query) :
    Except PyErr (ℚ × String) :=
  if !(CLASS_NAMES.contains (lowerStr q.class_name))
      || !(ACTION_NAMES.contains (lowerStr q.action_name)) then
    Except.error PyErr.notImplemented
  else
    match adc_attr_to_request q.class_attrs with
    | Except.error e => Except.error e
    | Except.ok r =>
      let energy_per_op := energy_per_op_model r * 10 ^ 12
      if energy_per_op = 0 then Except.error PyErr.noModelMatch
      else Except.ok (energy_per_op, "p")

/-- `estimate_area`: gate on the class name only; build the request
(errors propagate); return the opaque model lookup unchanged with unit
label `u^2`, with no nonzero assertion. -/
def estimate_area (area_model : ADCRequest → ℚ) (q : Query) :
    Except PyErr (ℚ × String) :=
  if !(CLASS_NAMES.contains (lowerStr q.class_name)) then
    Except.error PyErr.notImplemented
  else
    match adc_attr_to_request q.class_attrs with
    | Except.error e => Except.error e
    | Except.ok r => Except.ok (area_model r, "u^2")

/-! ### Shared concrete inputs for witnesses and counterexamples -/

/-- The well-formed attribute set of the source's `__main__` block. -/
def sampleAttrs : List (String × Value) :=
  [("resolution", Value.num 8), ("technology", Value.num 16),
   ("throughput", Value.num 5120000000), ("n_adc", Value.num 32)]

/-- The canonical request that `sampleAttrs` builds. -/
def sampleRequest : ADCRequest := ⟨8, 16, 5120000000, 32⟩

/-- Attributes whose `n_adc` is present but numerically unparsable,
while the alias `n_components` carries the value 7. -/
def aliasAttrs7 : List (String × Value) :=
  [("n_adc", Value.str "abc"), ("n_components", Value.num 7),
   ("resolution", Value.num 8), ("technology", Value.num 16),
   ("throughput", Value.num 5)]

/-- Attributes whose `n_adc` is present but numerically unparsable,
while the alias `n_components` carries the value 4. -/
def aliasAttrs4 : List (String × Value) :=
  [("n_adc", Value.str "abc"), ("n_components", Value.num 4),
   ("resolution", Value.num 8), ("technology", Value.num 16),
   ("throughput", Value.num 5)]

/-! ## Theorems -/

/-- The empty token occurs in every string. -/
theorem occursIn_nil (cs : List Char) : occursIn [] cs = true := by
  cases cs <;> simp [occursIn, startsWithCh]

/-- C7: for every nonzero native scale, any target scale, and any
attribute value that is a number or a string `float()` accepts
(`floatCast` succeeds), `unit_check` returns exactly
`v / native_scale * target_scale`, never reaching the SI token scan.
(The nonzero-scale hypothesis marks the only divergence of the exact
rational embedding from Python, whose division by a zero scale would
raise instead of returning.) -/
theorem C7_direct_scaling (k : String) (attrs : List (String × Value))
    (w : Value) (v d sn st : ℚ) (_hsn : sn ≠ 0)
    (hk : lookupAttr attrs k = some w)
    (hw : floatCast w = Except.ok v) :
    unit_check k attrs d sn st = v / sn * st := by
  unfold unit_check
  rw [hk]
  cases w with
  | num x =>
    simp only [floatCast, Except.ok.injEq] at hw
    rw [hw]
  | str s =>
    simp only [floatCast] at hw
    cases hps : pyFloatStr s with
    | none => rw [hps] at hw; cases hw
    | some x =>
      rw [hps] at hw
      cases hw
      simp [hps]

/-- Witness for C7 at a numeric value. -/
theorem C7_direct_scaling_witness :
    unit_check "x" [("x", Value.num 6)] 0 2 3 = 9 := by
  have h := C7_direct_scaling "x" [("x", Value.num 6)] (Value.num 6) 6 0 2 3
    (by norm_num) (by rfl) (by rfl)
  rw [h]; norm_num

/-- C8: whenever the class/action gates pass and the attributes build a
request `r`, `estimate_energy` reports the model lookup times `10 ^ 12`
(joules to picojoules) with unit label `p` (provided the product is
nonzero, the case C9 covers), and `estimate_area` reports the model
lookup unchanged with unit label `u^2`. -/
theorem C8_unit_labels (eLook aLook : ADCRequest → ℚ) (q : Query)
    (r : ADCRequest)
    (hcls : CLASS_NAMES.contains (lowerStr q.class_name) = true)
    (hact : ACTION_NAMES.contains (lowerStr q.action_name) = true)
    (hr : adc_attr_to_request q.class_attrs = Except.ok r)
    (hnz : eLook r ≠ 0) :
    estimate_energy eLook q = Except.ok (eLook r * 10 ^ 12, "p") ∧
    estimate_area aLook q = Except.ok (aLook r, "u^2") := by
  have hmul : eLook r * 10 ^ 12 ≠ 0 := mul_ne_zero hnz (by norm_num)
  constructor
  · unfold estimate_energy
    rw [hcls, hact]
    simp only [Bool.not_true, Bool.or_self, Bool.false_eq_true, if_false, hr]
    rw [if_neg hmul]
  · unfold estimate_area
    rw [hcls]
    simp only [Bool.not_true, Bool.false_eq_true, if_false, hr]

/-- Witness for C8 on the source's own example query. -/
theorem C8_unit_labels_witness :
    estimate_energy (fun _ => 2) ⟨"adc", "convert", sampleAttrs⟩ =
      Except.ok (2 * 10 ^ 12, "p") ∧
    estimate_area (fun _ => 3) ⟨"adc", "convert", sampleAttrs⟩ =
      Except.ok (3, "u^2") :=
  C8_unit_labels (fun _ => 2) (fun _ => 3) ⟨"adc", "convert", sampleAttrs⟩
    sampleRequest (by decide) (by decide) (by decide) (by norm_num)

/-- C9: when the energy lookup yields zero, `estimate_energy` fails on
its nonzero assertion (`Could not find ADC for request.`), while
`estimate_area` performs no such check and returns whatever the area
lookup yields. -/
theorem C9_zero_lookup (eLook aLook : ADCRequest → ℚ) (q : Query)
    (r : ADCRequest)
    (hcls : CLASS_NAMES.contains (lowerStr q.class_name) = true)
    (hact : ACTION_NAMES.contains (lowerStr q.action_name) = true)
    (hr : adc_attr_to_request q.class_attrs = Except.ok r)
    (hz : eLook r = 0) :
    estimate_energy eLook q = Except.error PyErr.noModelMatch ∧
    estimate_area aLook q = Except.ok (aLook r, "u^2") := by
  constructor
  · unfold estimate_energy
    rw [hcls, hact]
    simp only [Bool.not_true, Bool.or_self, Bool.false_eq_true, if_false, hr]
    rw [if_pos (by rw [hz]; ring)]
  · unfold estimate_area
    rw [hcls]
    simp only [Bool.not_true, Bool.false_eq_true, if_false, hr]

/-- Witness for C9: an everywhere-zero model makes the energy path fail
and the area path report a degenerate zero. -/
theorem C9_zero_lookup_witness :
    estimate_energy (fun _ => 0) ⟨"adc", "convert", sampleAttrs⟩ =
      Except.error PyErr.noModelMatch ∧
    estimate_area (fun _ => 0) ⟨"adc", "convert", sampleAttrs⟩ =
      Except.ok (0, "u^2") :=
  C9_zero_lookup (fun _ => 0) (fun _ => 0) ⟨"adc", "convert", sampleAttrs⟩
    sampleRequest (by decide) (by decide) (by decide) rfl

/-- C1 counterexample: the claim says capability probes never raise,
yet on class `adc`, action `convert` with an empty attribute mapping the
energy probe propagates the builder's `AssertionError` (message
`No attribute found: n_components`) instead of returning zero
confidence. -/
theorem C1_counterexample :
    primitive_action_supported ⟨"adc", "convert", []⟩ =
      Except.error (PyErr.missing "n_components") := by decide

/-- C1 amended: the probes return confidence without raising only when
the class/action gate fails; when the gate passes, a failure of the
canonical-request build is NOT caught — both probes propagate it to the
caller. -/
theorem C1_probe_error_propagation (q : Query) (e : PyErr)
    (hcls : lowerStr q.class_name = "adc")
    (hact : lowerStr q.action_name = "convert")
    (he : adc_attr_to_request q.class_attrs = Except.error e) :
    primitive_action_supported q = Except.error e ∧
    primitive_area_supported q = Except.error e := by
  constructor
  · unfold primitive_action_supported
    rw [if_pos ⟨hcls, hact⟩, he]
  · unfold primitive_area_supported
    rw [if_pos (by rw [hcls]; decide), he]

/-- Witness for the amended C1. -/
theorem C1_probe_error_propagation_witness :
    primitive_action_supported ⟨"ADC", "Convert", []⟩ =
      Except.error (PyErr.missing "n_components") ∧
    primitive_area_supported ⟨"ADC", "Convert", []⟩ =
      Except.error (PyErr.missing "n_components") :=
  C1_probe_error_propagation ⟨"ADC", "Convert", []⟩
    (PyErr.missing "n_components") (by decide) (by decide) (by decide)

/-- C3 counterexample: the two accuracy constants are equal (75), not
distinct; the energy probe returns confidence 0 for class `pim_adc`
with action `convert` although both lie in the recognized sets and the
attributes build a request; and the area probe returns the nonzero
accuracy constant for an action (`zap`) outside the recognized action
set. -/
theorem C3_counterexample :
    ENERGY_ACCURACY = AREA_ACCURACY ∧
    primitive_action_supported ⟨"pim_adc", "convert", sampleAttrs⟩ =
      Except.ok 0 ∧
    primitive_area_supported ⟨"adc", "zap", sampleAttrs⟩ =
      Except.ok AREA_ACCURACY := by
  refine ⟨rfl, by decide, by decide⟩

/-- C3 amended: the energy probe gates on exactly class `adc` AND
action `convert` (lower-cased), not on the full recognized sets; the
area probe gates on the class being in `CLASS_NAMES` and ignores the
action entirely; a passed gate with a successful build returns the
fixed accuracy constant of the track, and the two constants are both
75, not distinct. -/
theorem C3_gating_amended (q : Query) (r : ADCRequest)
    (hr : adc_attr_to_request q.class_attrs = Except.ok r) :
    ENERGY_ACCURACY = 75 ∧ AREA_ACCURACY = 75 ∧
    (primitive_action_supported q =
      if lowerStr q.class_name = "adc" ∧ lowerStr q.action_name = "convert"
      then Except.ok ENERGY_ACCURACY else Except.ok 0) ∧
    (primitive_area_supported q =
      if CLASS_NAMES.contains (lowerStr q.class_name)
      then Except.ok AREA_ACCURACY else Except.ok 0) := by
  refine ⟨rfl, rfl, ?_, ?_⟩
  · unfold primitive_action_supported
    by_cases hg : lowerStr q.class_name = "adc" ∧ lowerStr q.action_name = "convert"
    · rw [if_pos hg, if_pos hg, hr]
    · rw [if_neg hg, if_neg hg]
  · unfold primitive_area_supported
    by_cases hg : CLASS_NAMES.contains (lowerStr q.class_name)
    · rw [if_pos hg, if_pos hg, hr]
    · rw [if_neg hg, if_neg hg]

/-- Witness for the amended C3. -/
theorem C3_gating_amended_witness :
    primitive_action_supported ⟨"adc", "convert", sampleAttrs⟩ =
      Except.ok ENERGY_ACCURACY ∧
    primitive_area_supported ⟨"adc", "convert", sampleAttrs⟩ =
      Except.ok AREA_ACCURACY := by
  have h := C3_gating_amended ⟨"adc", "convert", sampleAttrs⟩ sampleRequest
    (by decide)
  exact ⟨by rw [h.2.2.1, if_pos (by decide)],
         by rw [h.2.2.2, if_pos (by decide)]⟩

/-- C4 counterexample: for class `adc` with the unrecognized action
`zap`, `estimate_energy` raises its gate failure but `estimate_area`
does not raise — it proceeds to a normal estimate — contradicting the
claim that both value entry points raise whenever the class OR the
action is unrecognized. -/
theorem C4_counterexample :
    estimate_area (fun _ => 2) ⟨"adc", "zap", sampleAttrs⟩ =
      Except.ok (2, "u^2") ∧
    estimate_energy (fun _ => 2) ⟨"adc", "zap", sampleAttrs⟩ =
      Except.error PyErr.notImplemented := by
  constructor
  · unfold estimate_area
    rw [if_neg (by decide)]
    rw [show adc_attr_to_request sampleAttrs = Except.ok sampleRequest
          from by decide]
  · unfold estimate_energy
    rw [if_pos (by decide)]

/-- C4 amended: a class name outside the recognized class set makes
both value entry points raise `NotImplementedError` and both
capability probes return confidence 0 (the claim's `gpu`/`convert`
scenario); but only `estimate_energy` also gates on the action name —
`estimate_area` ignores it. -/
theorem C4_unsupported_class (eLook aLook : ADCRequest → ℚ) (q : Query)
    (hcls : CLASS_NAMES.contains (lowerStr q.class_name) = false) :
    estimate_energy eLook q = Except.error PyErr.notImplemented ∧
    estimate_area aLook q = Except.error PyErr.notImplemented ∧
    primitive_action_supported q = Except.ok 0 ∧
    primitive_area_supported q = Except.ok 0 := by
  have hadc : ¬ (lowerStr q.class_name = "adc") := by
    intro h
    rw [h] at hcls
    cases hcls
  have hmem : lowerStr q.class_name ∉ CLASS_NAMES := by simpa using hcls
  refine ⟨?_, ?_, ?_, ?_⟩
  · simp [estimate_energy, hmem]
  · simp [estimate_area, hmem]
  · unfold primitive_action_supported
    rw [if_neg (fun hg => hadc hg.1)]
  · simp [primitive_area_supported, hmem]

/-- Witness for the amended C4: the spec's end-to-end `gpu`/`convert`
scenario. -/
theorem C4_unsupported_class_witness :
    estimate_energy (fun _ => 2) ⟨"gpu", "convert", sampleAttrs⟩ =
      Except.error PyErr.notImplemented ∧
    estimate_area (fun _ => 2) ⟨"gpu", "convert", sampleAttrs⟩ =
      Except.error PyErr.notImplemented ∧
    primitive_action_supported ⟨"gpu", "convert", sampleAttrs⟩ =
      Except.ok 0 ∧
    primitive_area_supported ⟨"gpu", "convert", sampleAttrs⟩ =
      Except.ok 0 :=
  C4_unsupported_class (fun _ => 2) (fun _ => 2)
    ⟨"gpu", "convert", sampleAttrs⟩ (by decide)

/-- If the component-count step yields `n` and the three remaining
fields resolve to in-range numerics, the builder returns the assembled
request.  (Shared spine for the builder theorems.) -/
theorem adc_attr_to_request_of_steps (attrs : List (String × Value))
    (b t th : ℚ) (n : ℤ)
    (hn2 : n_adcStep attrs = Except.ok n)
    (hb : lookupAttr attrs "resolution" = some (Value.num b))
    (ht : lookupAttr attrs "technology" = some (Value.num t))
    (hth : lookupAttr attrs "throughput" = some (Value.num th))
    (hbits : 0 ≤ b) (hone : 1 ≤ n) :
    adc_attr_to_request attrs = Except.ok ⟨b, t, th, n⟩ := by
  unfold adc_attr_to_request
  rw [hn2]
  simp [checkerr, hb, ht, hth, floatCast, Except.bind, ADCRequest.make,
    hbits, hone]

/-- C5 counterexample: in `aliasAttrs7` the primary name `n_adc` IS
present (with the numerically unparsable string `abc`), yet the builder
still consults the alias and uses its value 7 — refuting the claim that
only the entire absence of `n_adc` triggers the fallback. -/
theorem C5_counterexample :
    adc_attr_to_request aliasAttrs7 = Except.ok ⟨8, 16, 5, 7⟩ := by decide

/-- C5 amended: the alias `n_components` is consulted exactly when the
primary lookup raises an `AssertionError`, which happens both when
`n_adc` is entirely absent AND when `n_adc` holds a string with no
extractable number; in either case an attribute mapping carrying a
well-formed `n_components` builds a canonical request whose component
count is the alias's (truncated) value. -/
theorem C5_alias_fallback (attrs : List (String × Value)) (c b t th : ℚ)
    (hc : lookupAttr attrs "n_components" = some (Value.num c))
    (hb : lookupAttr attrs "resolution" = some (Value.num b))
    (ht : lookupAttr attrs "technology" = some (Value.num t))
    (hth : lookupAttr attrs "throughput" = some (Value.num th))
    (hbits : 0 ≤ b) (hone : 1 ≤ pyInt c) :
    (lookupAttr attrs "n_adc" = none →
      adc_attr_to_request attrs = Except.ok ⟨b, t, th, pyInt c⟩) ∧
    (∀ s : String, lookupAttr attrs "n_adc" = some (Value.str s) →
      firstNumber s.data = none →
      adc_attr_to_request attrs = Except.ok ⟨b, t, th, pyInt c⟩) := by
  constructor
  · intro hmiss
    refine adc_attr_to_request_of_steps attrs b t th (pyInt c) ?_ hb ht hth
      hbits hone
    simp [n_adcStep, checkerr, hmiss, isAssertion, hc, intCast, Except.bind]
  · intro s hstr hnum
    refine adc_attr_to_request_of_steps attrs b t th (pyInt c) ?_ hb ht hth
      hbits hone
    simp [n_adcStep, checkerr, hstr, hnum, isAssertion, hc, intCast,
      Except.bind]

/-- Witness for the amended C5: the same attribute values once with
`n_adc` absent and once with `n_adc` unparsable. -/
theorem C5_alias_fallback_witness :
    adc_attr_to_request
      [("n_components", Value.num 7), ("resolution", Value.num 8),
       ("technology", Value.num 16), ("throughput", Value.num 5)] =
      Except.ok ⟨8, 16, 5, 7⟩ ∧
    adc_attr_to_request
      [("n_adc", Value.str "zz"), ("n_components", Value.num 7),
       ("resolution", Value.num 8), ("technology", Value.num 16),
       ("throughput", Value.num 5)] =
      Except.ok ⟨8, 16, 5, 7⟩ := by
  constructor
  · have h := C5_alias_fallback
      [("n_components", Value.num 7), ("resolution", Value.num 8),
       ("technology", Value.num 16), ("throughput", Value.num 5)]
      7 8 16 5 (by decide) (by decide) (by decide) (by decide)
      (by norm_num) (by decide)
    exact h.1 (by decide)
  · have h := C5_alias_fallback
      [("n_adc", Value.str "zz"), ("n_components", Value.num 7),
       ("resolution", Value.num 8), ("technology", Value.num 16),
       ("throughput", Value.num 5)]
      7 8 16 5 (by decide) (by decide) (by decide) (by decide)
      (by norm_num) (by decide)
    exact h.2 "zz" (by decide) (by decide)

/-- C6 counterexample: `n_adc` is declared numeric and holds the string
`abc` with no extractable number, yet the builder does not fail with any
error naming `n_adc` — it silently falls back to the alias and
succeeds. -/
theorem C6_counterexample :
    adc_attr_to_request aliasAttrs4 = Except.ok ⟨8, 16, 5, 4⟩ := by decide

/-- C6 amended: for each of the directly-looked-up required fields
`resolution`, `technology` and `throughput` (checked in that order
after the component count), absence fails with the
`MissingAttribute`-style assertion naming that field and an unparsable
numeric string fails with the `UnparsableNumeric`-style assertion
naming that field, with no silent default; for the component count,
absence of BOTH `n_adc` and `n_components` fails naming the alias
`n_components`, while an unparsable `n_adc` triggers the alias
fallback instead of an error naming `n_adc`. -/
theorem C6_error_reporting (attrs : List (String × Value)) (n b t : ℚ)
    (s : String) :
    (lookupAttr attrs "n_adc" = some (Value.num n) →
      lookupAttr attrs "resolution" = none →
      adc_attr_to_request attrs = Except.error (PyErr.missing "resolution")) ∧
    (lookupAttr attrs "n_adc" = some (Value.num n) →
      lookupAttr attrs "resolution" = some (Value.str s) →
      firstNumber s.data = none →
      adc_attr_to_request attrs =
        Except.error (PyErr.noNumeric "resolution")) ∧
    (lookupAttr attrs "n_adc" = some (Value.num n) →
      lookupAttr attrs "resolution" = some (Value.num b) →
      lookupAttr attrs "technology" = none →
      adc_attr_to_request attrs = Except.error (PyErr.missing "technology")) ∧
    (lookupAttr attrs "n_adc" = some (Value.num n) →
      lookupAttr attrs "resolution" = some (Value.num b) →
      lookupAttr attrs "technology" = some (Value.str s) →
      firstNumber s.data = none →
      adc_attr_to_request attrs =
        Except.error (PyErr.noNumeric "technology")) ∧
    (lookupAttr attrs "n_adc" = some (Value.num n) →
      lookupAttr attrs "resolution" = some (Value.num b) →
      lookupAttr attrs "technology" = some (Value.num t) →
      lookupAttr attrs "throughput" = none →
      adc_attr_to_request attrs = Except.error (PyErr.missing "throughput")) ∧
    (lookupAttr attrs "n_adc" = some (Value.num n) →
      lookupAttr attrs "resolution" = some (Value.num b) →
      lookupAttr attrs "technology" = some (Value.num t) →
      lookupAttr attrs "throughput" = some (Value.str s) →
      firstNumber s.data = none →
      adc_attr_to_request attrs =
        Except.error (PyErr.noNumeric "throughput")) ∧
    (lookupAttr attrs "n_adc" = none →
      lookupAttr attrs "n_components" = none →
      adc_attr_to_request attrs =
        Except.error (PyErr.missing "n_components")) := by
  refine ⟨?_, ?_, ?_, ?_, ?_, ?_, ?_⟩
  · intro hn hb
    unfold adc_attr_to_request
    rw [show n_adcStep attrs = Except.ok (pyInt n) from by
      simp [n_adcStep, checkerr, hn, intCast, Except.bind]]
    simp [checkerr, hb, Except.bind]
  · intro hn hb hnum
    unfold adc_attr_to_request
    rw [show n_adcStep attrs = Except.ok (pyInt n) from by
      simp [n_adcStep, checkerr, hn, intCast, Except.bind]]
    simp [checkerr, hb, hnum, Except.bind]
  · intro hn hb ht
    unfold adc_attr_to_request
    rw [show n_adcStep attrs = Except.ok (pyInt n) from by
      simp [n_adcStep, checkerr, hn, intCast, Except.bind]]
    simp [checkerr, hb, ht, floatCast, Except.bind]
  · intro hn hb ht hnum
    unfold adc_attr_to_request
    rw [show n_adcStep attrs = Except.ok (pyInt n) from by
      simp [n_adcStep, checkerr, hn, intCast, Except.bind]]
    simp [checkerr, hb, ht, hnum, floatCast, Except.bind]
  · intro hn hb ht hth
    unfold adc_attr_to_request
    rw [show n_adcStep attrs = Except.ok (pyInt n) from by
      simp [n_adcStep, checkerr, hn, intCast, Except.bind]]
    simp [checkerr, hb, ht, hth, floatCast, Except.bind]
  · intro hn hb ht hth hnum
    unfold adc_attr_to_request
    rw [show n_adcStep attrs = Except.ok (pyInt n) from by
      simp [n_adcStep, checkerr, hn, intCast, Except.bind]]
    simp [checkerr, hb, ht, hth, hnum, floatCast, Except.bind]
  · intro h1 h2
    unfold adc_attr_to_request
    rw [show n_adcStep attrs = Except.error (PyErr.missing "n_components")
      from by simp [n_adcStep, checkerr, h1, h2, isAssertion, Except.bind]]

/-- Witness for the amended C6 at seven concrete attribute mappings,
one per error case. -/
theorem C6_error_reporting_witness :
    adc_attr_to_request [("n_adc", Value.num 3)] =
      Except.error (PyErr.missing "resolution") ∧
    adc_attr_to_request
      [("n_adc", Value.num 3), ("resolution", Value.str "big")] =
      Except.error (PyErr.noNumeric "resolution") ∧
    adc_attr_to_request
      [("n_adc", Value.num 3), ("resolution", Value.num 8)] =
      Except.error (PyErr.missing "technology") ∧
    adc_attr_to_request
      [("n_adc", Value.num 3), ("resolution", Value.num 8),
       ("technology", Value.str "big")] =
      Except.error (PyErr.noNumeric "technology") ∧
    adc_attr_to_request
      [("n_adc", Value.num 3), ("resolution", Value.num 8),
       ("technology", Value.num 16)] =
      Except.error (PyErr.missing "throughput") ∧
    adc_attr_to_request
      [("n_adc", Value.num 3), ("resolution", Value.num 8),
       ("technology", Value.num 16), ("throughput", Value.str "big")] =
      Except.error (PyErr.noNumeric "throughput") ∧
    adc_attr_to_request [("technology", Value.num 16)] =
      Except.error (PyErr.missing "n_components") := by
  refine ⟨?_, ?_, ?_, ?_, ?_, ?_, ?_⟩
  · exact (C6_error_reporting [("n_adc", Value.num 3)] 3 8 16 "big").1
      (by decide) (by decide)
  · exact (C6_error_reporting
      [("n_adc", Value.num 3), ("resolution", Value.str "big")]
      3 8 16 "big").2.1
      (by decide) (by decide) (by decide)
  · exact (C6_error_reporting
      [("n_adc", Value.num 3), ("resolution", Value.num 8)]
      3 8 16 "big").2.2.1
      (by decide) (by decide) (by decide)
  · exact (C6_error_reporting
      [("n_adc", Value.num 3), ("resolution", Value.num 8),
       ("technology", Value.str "big")] 3 8 16 "big").2.2.2.1
      (by decide) (by decide) (by decide) (by decide)
  · exact (C6_error_reporting
      [("n_adc", Value.num 3), ("resolution", Value.num 8),
       ("technology", Value.num 16)] 3 8 16 "big").2.2.2.2.1
      (by decide) (by decide) (by decide) (by decide)
  · exact (C6_error_reporting
      [("n_adc", Value.num 3), ("resolution", Value.num 8),
       ("technology", Value.num 16), ("throughput", Value.str "big")]
      3 8 16 "big").2.2.2.2.2.1
      (by decide) (by decide) (by decide) (by decide) (by decide)
  · exact (C6_error_reporting [("technology", Value.num 16)]
      3 8 16 "big").2.2.2.2.2.2
      (by decide) (by decide)

/-- A successful spec-modelled construction satisfies the record
invariant. -/
theorem make_ok_invariant (bits tech th : ℚ) (n : ℤ) (r : ADCRequest)
    (h : ADCRequest.make bits tech th n = Except.ok r) :
    0 ≤ r.bits ∧ 1 ≤ r.n_adc := by
  unfold ADCRequest.make at h
  by_cases hc : 0 ≤ bits ∧ 1 ≤ n
  · rw [if_pos hc] at h
    cases h
    exact ⟨hc.1, hc.2⟩
  · rw [if_neg hc] at h
    cases h

/-- C10: every canonical request the builder returns satisfies the
data-model invariant — the four fields are present and numeric by the
record's type, the resolution is nonnegative and the component count is
an integer at least 1.  (The bound checks live in the spec-modelled
`ADCRequest.make`, since the real constructor is outside the embedded
sources; the builder propagates them unchanged.) -/
theorem C10_request_invariant (attrs : List (String × Value))
    (r : ADCRequest) (h : adc_attr_to_request attrs = Except.ok r) :
    0 ≤ r.bits ∧ 1 ≤ r.n_adc := by
  unfold adc_attr_to_request at h
  split at h
  · cases h
  · split at h
    · cases h
    · split at h
      · cases h
      · split at h
        · cases h
        · exact make_ok_invariant _ _ _ _ _ h

/-- Witness for C10 on the source's own example attributes. -/
theorem C10_request_invariant_witness :
    (0 : ℚ) ≤ sampleRequest.bits ∧ 1 ≤ sampleRequest.n_adc :=
  C10_request_invariant sampleAttrs sampleRequest (by decide)

/-- C2 counterexample: `16nm` with native scale 1 and target scale 1
does NOT yield 0.016 = 16/1000: the loop applies BOTH the matching `m`
token (index 1) and the matching `n` token (index 3), producing
16/1000^4 = 1.6e-11. -/
theorem C2_counterexample :
    unit_check "technology" [("technology", Value.str "16nm")] 0 1 1 =
      16 / 10 ^ 12 ∧
    unit_check "technology" [("technology", Value.str "16nm")] 0 1 1 ≠
      16 / 10 ^ 3 := by
  have hf : pyFloatStr "16nm" = none := by decide
  have hx : firstNumber "16nm".data = some 16 := by decide
  have h0 : occursIn [] "16nm".data = true := by decide
  have h1 : occursIn ['m'] "16nm".data = true := by decide
  have h2 : occursIn ['u'] "16nm".data = false := by decide
  have h3 : occursIn ['n'] "16nm".data = true := by decide
  have h4 : occursIn ['p'] "16nm".data = false := by decide
  have h5 : occursIn ['f'] "16nm".data = false := by decide
  have key : unit_check "technology" [("technology", Value.str "16nm")]
      0 1 1 = 16 / 10 ^ 12 := by
    unfold unit_check
    rw [show lookupAttr [("technology", Value.str "16nm")] "technology" =
      some (Value.str "16nm") from by simp [lookupAttr]]
    simp only [hf, hx, siTokens, List.enum, List.enumFrom, List.foldl,
      h0, h1, h2, h3, h4, h5, if_true, if_false, Bool.false_eq_true]
    norm_num
  exact ⟨key, by rw [key]; norm_num⟩

/-- C2 amended: in the string branch, EVERY SI token occurring as a
substring of the raw string contributes its own scale-down factor
`1000 ^ index`, applied cumulatively — matching does not stop at the
first token in list order; and because the empty token always occurs,
the no-token multiplication by the target scale can never fire in the
string branch, so the extracted number is returned without the target
scale factor. -/
theorem C2_cumulative_scaling (k s : String) (x d sn st : ℚ)
    (hf : pyFloatStr s = none) (hx : firstNumber s.data = some x) :
    unit_check k [(k, Value.str s)] d sn st =
      ((((x / sn /
        (if occursIn ['m'] s.data then 1000 ^ 1 else 1)) /
        (if occursIn ['u'] s.data then 1000 ^ 2 else 1)) /
        (if occursIn ['n'] s.data then 1000 ^ 3 else 1)) /
        (if occursIn ['p'] s.data then 1000 ^ 4 else 1)) /
        (if occursIn ['f'] s.data then 1000 ^ 5 else 1) := by
  unfold unit_check
  rw [show lookupAttr [(k, Value.str s)] k = some (Value.str s) from by
    simp [lookupAttr]]
  simp only [hf, hx, siTokens, List.enum, List.enumFrom, List.foldl,
    occursIn_nil, if_true]
  by_cases h1 : occursIn ['m'] s.data = true <;>
  by_cases h2 : occursIn ['u'] s.data = true <;>
  by_cases h3 : occursIn ['n'] s.data = true <;>
  by_cases h4 : occursIn ['p'] s.data = true <;>
  by_cases h5 : occursIn ['f'] s.data = true <;>
  simp [h1, h2, h3, h4, h5]

/-- Witness for the amended C2: `16nm` at native scale 1 and target
scale 7 — the target scale is not applied, and both `m` and `n`
contribute. -/
theorem C2_cumulative_scaling_witness :
    unit_check "technology" [("technology", Value.str "16nm")] 0 1 7 =
      16 / 10 ^ 12 := by
  have h := C2_cumulative_scaling "technology" "16nm" 16 0 1 7
    (by decide) (by decide)
  rw [h]
  rw [if_pos (show occursIn ['m'] "16nm".data = true from by decide),
    if_neg (show ¬ occursIn ['u'] "16nm".data = true from by decide),
    if_pos (show occursIn ['n'] "16nm".data = true from by decide),
    if_neg (show ¬ occursIn ['p'] "16nm".data = true from by decide),
    if_neg (show ¬ occursIn ['f'] "16nm".data = true from by decide)]
  norm_num

end AnalogPlugin
